import Mathlib

/-!
A shallow embedding of the two scripts of the GitHubTools repository:

* `CreateBranches` models `GitHubCreateBranches/create_branches_in_projects.py`
  (Procedure B: create one branch across a named fleet of repositories);
* `ReposFromTE` models `GetAllTEReposAndCommit/repos_from_te.py`
  (Procedure A: roll out a workflow file across many repositories via PRs).

External effects (HTTP responses, git outcomes, console input) are passed in
as explicit values; each Lean function mirrors the control flow of the Python
function of the same name.
-/

namespace Py

/-- Python `s.startswith(p)`: `p` is an initial segment of `s`. -/
def startswith (s p : String) : Bool :=
  p.data.isPrefixOf s.data

/-- Python `str.lower` on one character, for the ASCII range the script's
tokens live in (`str.lower` maps no non-ASCII character into `"y"`, `"yes"`
or any other ASCII token the scripts compare against). -/
def lowerChar (c : Char) : Char :=
  if 65 ≤ c.toNat && c.toNat ≤ 90 then Char.ofNat (c.toNat + 32) else c

/-- Python `s.lower()`. -/
def lower (s : String) : String :=
  ⟨s.data.map lowerChar⟩

end Py

namespace CreateBranches

/-- An HTTP response as the script observes it: the status code, the body
text, and (for the base-ref GET) the `["object"]["sha"]` field of the JSON
body. -/
structure Response where
  status_code : Nat
  text : String
  sha : String
deriving Repr, DecidableEq

/-- The `requests` library's `raise_for_status` raises an `HTTPError` exactly for
client-error (4xx) and server-error (5xx) status codes. -/
def raise_for_status_raises (s : Nat) : Bool :=
  decide (400 ≤ s ∧ s < 600)

/-- How one invocation of `create_github_branch` ends: a normal `return`
of a boolean, or an exception propagating out of the function uncaught. -/
inductive Outcome where
  | ok (success : Bool)
  | crash
deriving Repr, DecidableEq

/-- The error-reporting print lines of `create_github_branch` that the
claims talk about. -/
inductive LogEvent where
  | errFetchSHA
  | branchNotFound
  | responseBody (body : String)
  | checkRepoOwnerToken
  | errCreateBranch
deriving Repr, DecidableEq

/-- What one invocation of `create_github_branch` did: how it ended, which
of the two HTTP requests it issued, and what it logged on the error paths. -/
structure BranchRunResult where
  outcome : Outcome
  getIssued : Bool
  postIssued : Bool
  log : List LogEvent
deriving Repr, DecidableEq

/-- Model of `create_github_branch(repo_name, new_branch, base_branch, owner, token)`.

`getResp` is the outcome of the `requests.get` on the base ref (`none` means
the call raised a transport-level `RequestException` with no response ever
bound); `postResp` likewise for the `requests.post` creating the ref.

In the `none` GET case the Python `except` block evaluates
`response.status_code` on the still-unbound local `response`, which raises
`UnboundLocalError`; that exception is not a `RequestException`, so it
propagates out of the function uncaught (`Outcome.crash`).

When the GET does not raise, the script reads the sha from the JSON body and
issues the POST.  In the `none` POST case `response` is still bound to the
step-1 GET response, so the handler logs that response's body and returns
`False`.  A 201 or 422 POST status returns `True`; a 4xx/5xx status makes the
second `raise_for_status` raise, which the handler logs with the body before
returning `False`; any other status falls through the `try` to the final
`return False` with nothing logged. -/
def create_github_branch (getResp : Option Response) (postResp : Option Response) :
    BranchRunResult :=
  match getResp with
  | none =>
      { outcome := .crash, getIssued := true, postIssued := false,
        log := [.errFetchSHA] }
  | some r =>
      if raise_for_status_raises r.status_code then
        if r.status_code = 404 then
          { outcome := .ok false, getIssued := true, postIssued := false,
            log := [.errFetchSHA, .branchNotFound] }
        else
          { outcome := .ok false, getIssued := true, postIssued := false,
            log := [.errFetchSHA, .responseBody r.text, .checkRepoOwnerToken] }
      else
        match postResp with
        | none =>
            { outcome := .ok false, getIssued := true, postIssued := true,
              log := [.errCreateBranch, .responseBody r.text] }
        | some p =>
            if p.status_code = 201 then
              { outcome := .ok true, getIssued := true, postIssued := true, log := [] }
            else if p.status_code = 422 then
              { outcome := .ok true, getIssued := true, postIssued := true, log := [] }
            else if raise_for_status_raises p.status_code then
              { outcome := .ok false, getIssued := true, postIssued := true,
                log := [.errCreateBranch, .responseBody p.text] }
            else
              { outcome := .ok false, getIssued := true, postIssued := true, log := [] }

/-- The pair of HTTP events one repository of the fleet contributes to a run:
the base-ref GET's outcome and the ref-creation POST's outcome. -/
abbrev RepoHttp := Option Response × Option Response

/-- Number of HTTP requests one invocation issued. -/
def apiCallCount (r : BranchRunResult) : Nat :=
  (if r.getIssued then 1 else 0) + (if r.postIssued then 1 else 0)

/-- A repository counts as successful when `create_github_branch` returns
`True` for it. -/
def repoSuccess (e : RepoHttp) : Bool :=
  match (create_github_branch e.1 e.2).outcome with
  | .ok true => true
  | _ => false

/-- What the per-repository loop of `main` did. -/
structure LoopResult where
  apiCalls : Nat
  all_successful : Bool
  crashed : Bool
deriving Repr, DecidableEq

/-- The per-repository loop `for repo in selected_repos` of `main`: each repository is
processed in order; a returned `False` clears `all_successful` but
processing continues; an exception propagating out of
`create_github_branch` aborts the loop (and the process) at once. -/
def procB_loop : List RepoHttp → LoopResult
  | [] => { apiCalls := 0, all_successful := true, crashed := false }
  | e :: rest =>
      match (create_github_branch e.1 e.2).outcome with
      | .crash =>
          { apiCalls := apiCallCount (create_github_branch e.1 e.2),
            all_successful := false, crashed := true }
      | .ok b =>
          { apiCalls := apiCallCount (create_github_branch e.1 e.2) +
              (procB_loop rest).apiCalls,
            all_successful := b && (procB_loop rest).all_successful,
            crashed := (procB_loop rest).crashed }

/-- The confirmation check of `main`: `confirm.lower() in ['y', 'yes']`. -/
def affirmative (confirm : String) : Bool :=
  Py.lower confirm == "y" || Py.lower confirm == "yes"

/-- How a whole Procedure B run ends: its process exit status, whether it
ended in an uncaught exception, and how many HTTP requests were issued. -/
structure ProcBResult where
  exitStatus : Nat
  crashed : Bool
  apiCalls : Nat
deriving Repr, DecidableEq

/-- Procedure B's `main` after the environment menu: the operator has
supplied `new_branch_name` and the confirmation answer `confirm`, and
`events` lists the HTTP outcomes the chosen fleet's repositories would
produce, in catalog order.

An empty branch name exits 1 before anything else; a non-affirmative
confirmation exits 0 before any HTTP request; otherwise the loop runs and the
process exits 0 when every repository succeeded, 1 when some repository
returned `False` (via `sys.exit(1)`), and 1 when an uncaught exception
escaped `main` (CPython terminates with status 1 on an uncaught
exception). -/
def procB_main (new_branch_name confirm : String) (events : List RepoHttp) :
    ProcBResult :=
  if new_branch_name = "" then
    { exitStatus := 1, crashed := false, apiCalls := 0 }
  else if !(affirmative confirm) then
    { exitStatus := 0, crashed := false, apiCalls := 0 }
  else if (procB_loop events).crashed then
    { exitStatus := 1, crashed := true, apiCalls := (procB_loop events).apiCalls }
  else if (procB_loop events).all_successful then
    { exitStatus := 0, crashed := false, apiCalls := (procB_loop events).apiCalls }
  else
    { exitStatus := 1, crashed := false, apiCalls := (procB_loop events).apiCalls }

end CreateBranches

namespace ReposFromTE

/-- Module constant `branch_name = "add-cherrypick-workflow"`. -/
def branch_name : String := "add-cherrypick-workflow"

/-- Module constant: the exclusion literal of the filter in `main`. -/
def excluded_name : String := "te-payment-test"

/-- Model of `create_branch_and_push(repo_url, repo_name, workflow_content)`: the body
is one `try` over the local git steps (clone if absent, checkout `-b`, write
the file, add, commit, push) that returns the module constant `branch_name`,
and an `except Exception` that logs and returns `None`.  The git steps are
external collaborators, so the model takes a single boolean saying whether
any of them raised. -/
def create_branch_and_push (gitStepsOk : Bool) : Option String :=
  if gitStepsOk then some branch_name else none

/-- The PR-creation response as the script observes it: the status code and
the `number`, `html_url` and raw-text fields of the body. -/
structure PRResponse where
  status_code : Nat
  number : Nat
  html_url : String
  text : String
deriving Repr, DecidableEq

/-- What one invocation of `create_pull_request` did: the returned value
(`None` modelled as `none`), whether the PR-creation POST was issued, and
how many reviewer requests were issued via `add_reviewers`. -/
structure PRCallResult where
  result : Option String
  prRequestIssued : Bool
  reviewerRequests : Nat
deriving Repr, DecidableEq

/-- Model of `create_pull_request(repo_name, branch_name)`.  A falsy branch name
(Python `if not branch_name`: `None` or the empty string) returns `None`
before any HTTP activity.  Otherwise the POST is issued (`resp = none`
models a transport exception, caught by the broad `except Exception` and
converted to `None`); on a 201 status the function extracts `html_url`,
calls `add_reviewers` exactly once, and returns the URL; on any other
status it logs and returns `None`. -/
def create_pull_request (branch : Option String) (resp : Option PRResponse) :
    PRCallResult :=
  match branch with
  | none => { result := none, prRequestIssued := false, reviewerRequests := 0 }
  | some b =>
      if b = "" then
        { result := none, prRequestIssued := false, reviewerRequests := 0 }
      else
        match resp with
        | none => { result := none, prRequestIssued := true, reviewerRequests := 0 }
        | some r =>
            if r.status_code = 201 then
              { result := some r.html_url, prRequestIssued := true, reviewerRequests := 1 }
            else
              { result := none, prRequestIssued := true, reviewerRequests := 0 }

/-- A repository object of the listing response: the two JSON fields the
script reads. -/
structure RepoJson where
  name : String
  clone_url : String
deriving Repr, DecidableEq

/-- One page response of the repository listing: status code and the JSON
array body. -/
structure PageResponse where
  status_code : Nat
  body : List RepoJson
deriving Repr, DecidableEq

/-- The pagination loop of `main` (Step 2): starting at page 1, request
successive pages; a non-200 status breaks out of the loop at once, an empty
page breaks, and otherwise the page's items are appended and the next page
is requested.  `pages` lists the responses the API would give to pages
1, 2, 3, …; the loop consumes an initial segment of it (a run past the end
of the list behaves as an empty page). -/
def fetch_repo_pages : List PageResponse → List RepoJson
  | [] => []
  | p :: rest =>
      if p.status_code ≠ 200 then []
      else if p.body = [] then []
      else p.body ++ fetch_repo_pages rest

/-- A page that keeps pagination going: status 200 and a non-empty body. -/
def pageContinues (p : PageResponse) : Bool :=
  p.status_code == 200 && !(p.body == [])

/-- Step 3 of `main`: keep the repositories whose name starts with `"te-"`
and is not `"te-payment-test"`. -/
def filter_te_repos (repos : List RepoJson) : List RepoJson :=
  repos.filter (fun r => Py.startswith r.name "te-" && !(r.name == excluded_name))

/-- The per-repository external events of one Procedure A iteration: whether
the local git steps of `create_branch_and_push` all succeeded, and the
PR-creation response (`none` = transport exception). -/
structure RepoEvents where
  gitStepsOk : Bool
  prResp : Option PRResponse
deriving Repr, DecidableEq

/-- Step 4 of `main`: for each filtered repository, publish the branch, then
open the PR; a returned URL is appended to `pr_urls`, otherwise nothing is.
The outer `try` of the loop body catches any exception and skips the
repository, which the inner handlers already model. -/
def procA_loop : List RepoEvents → List String
  | [] => []
  | e :: rest =>
      let nb := create_branch_and_push e.gitStepsOk
      let pr := create_pull_request nb e.prResp
      match pr.result with
      | some url => url :: procA_loop rest
      | none => procA_loop rest

/-- The URL a repository's iteration contributes, if any: its git steps all
succeeded and the PR creation came back 201. -/
def successUrl (e : RepoEvents) : Option String :=
  match e.prResp with
  | some r => if e.gitStepsOk && r.status_code == 201 then some r.html_url else none
  | none => none

/-- Step 5 of `main`: the output file is opened for writing and each URL of
`pr_urls` is written followed by a newline; the resulting file content is
their concatenation. -/
def write_output_file (urls : List String) : String :=
  String.join (urls.map (fun u => u ++ "\n"))

end ReposFromTE

namespace CreateBranches

/-- The loop's success flag is the conjunction of `repoSuccess` over the
whole list: a crash never counts as success. -/
theorem procB_loop_all_successful (evs : List RepoHttp) :
    (procB_loop evs).all_successful = evs.all repoSuccess := by
  induction evs with
  | nil => rfl
  | cons e rest ih =>
      cases ho : (create_github_branch e.1 e.2).outcome with
      | crash => simp [procB_loop, List.all_cons, repoSuccess, ho]
      | ok b => cases b <;> simp [procB_loop, List.all_cons, repoSuccess, ho, ih]

/-- A crashed loop has a non-successful event. -/
theorem procB_loop_crashed_not_all (evs : List RepoHttp)
    (h : (procB_loop evs).crashed = true) : evs.all repoSuccess = false := by
  induction evs with
  | nil => exact absurd h (by simp [procB_loop])
  | cons e rest ih =>
      cases ho : (create_github_branch e.1 e.2).outcome with
      | crash => simp [List.all_cons, repoSuccess, ho]
      | ok b =>
          simp only [procB_loop, ho] at h
          cases b <;> simp [List.all_cons, repoSuccess, ho, ih h]

end CreateBranches

namespace CreateBranches

/-- C1: branch creator status policy.  An error status on the base-ref
lookup issues no ref-creation request and yields failure (logged with the
response body unless it is the specially-reported 404); a 422 or 201 on ref
creation is success; any other error status on ref creation yields failure
logged with the response body. -/
theorem create_github_branch_status_policy (g p : Response) :
    (raise_for_status_raises g.status_code = true →
        (create_github_branch (some g) (some p)).postIssued = false ∧
        (create_github_branch (some g) (some p)).outcome = .ok false)
    ∧ (raise_for_status_raises g.status_code = true → g.status_code ≠ 404 →
        LogEvent.responseBody g.text ∈ (create_github_branch (some g) (some p)).log)
    ∧ (raise_for_status_raises g.status_code = false → p.status_code = 422 →
        (create_github_branch (some g) (some p)).outcome = .ok true)
    ∧ (raise_for_status_raises g.status_code = false → p.status_code = 201 →
        (create_github_branch (some g) (some p)).outcome = .ok true)
    ∧ (raise_for_status_raises g.status_code = false → p.status_code ≠ 422 →
        raise_for_status_raises p.status_code = true →
        (create_github_branch (some g) (some p)).outcome = .ok false ∧
        LogEvent.responseBody p.text ∈ (create_github_branch (some g) (some p)).log) := by
  refine ⟨?_, ?_, ?_, ?_, ?_⟩
  · intro hg
    simp only [raise_for_status_raises, decide_eq_true_eq] at hg
    by_cases h404 : g.status_code = 404 <;>
      simp [create_github_branch, raise_for_status_raises, hg, h404]
  · intro hg h404
    simp only [raise_for_status_raises, decide_eq_true_eq] at hg
    simp [create_github_branch, raise_for_status_raises, hg, h404]
  · intro hg h422
    simp only [raise_for_status_raises, decide_eq_false_iff_not] at hg
    have h201 : p.status_code ≠ 201 := by rw [h422]; decide
    simp [create_github_branch, raise_for_status_raises, hg, h422, h201]
  · intro hg h201
    simp only [raise_for_status_raises, decide_eq_false_iff_not] at hg
    simp [create_github_branch, raise_for_status_raises, hg, h201]
  · intro hg h422 hp
    simp only [raise_for_status_raises, decide_eq_false_iff_not] at hg
    simp only [raise_for_status_raises, decide_eq_true_eq] at hp
    have h201 : p.status_code ≠ 201 := by
      intro hc
      rw [hc] at hp
      exact absurd hp (by norm_num)
    simp [create_github_branch, raise_for_status_raises, hg, h422, h201, hp]

theorem create_github_branch_status_policy_witness :
    (create_github_branch (some ⟨500, "server error", ""⟩) (some ⟨201, "", ""⟩)).postIssued
      = false
    ∧ (create_github_branch (some ⟨500, "server error", ""⟩) (some ⟨201, "", ""⟩)).outcome
      = .ok false := by
  exact (create_github_branch_status_policy ⟨500, "server error", ""⟩ ⟨201, "", ""⟩).1
    (by decide)

/-- C10: a ref-creation status that is neither 201 nor 422 nor a 4xx/5xx
error (for example 200) falls through the `try` block: the repository counts
as failed, the POST was issued, and nothing is logged. -/
theorem ref_creation_other_status_silent_failure (g p : Response)
    (hg : raise_for_status_raises g.status_code = false)
    (h201 : p.status_code ≠ 201) (h422 : p.status_code ≠ 422)
    (hp : raise_for_status_raises p.status_code = false) :
    (create_github_branch (some g) (some p)).outcome = .ok false
    ∧ (create_github_branch (some g) (some p)).postIssued = true
    ∧ (create_github_branch (some g) (some p)).log = [] := by
  simp [create_github_branch, hg, h201, h422, hp]

theorem ref_creation_other_status_silent_failure_witness :
    (create_github_branch (some ⟨200, "", "abc123"⟩) (some ⟨200, "ok", ""⟩)).outcome
      = .ok false
    ∧ (create_github_branch (some ⟨200, "", "abc123"⟩) (some ⟨200, "ok", ""⟩)).postIssued
      = true
    ∧ (create_github_branch (some ⟨200, "", "abc123"⟩) (some ⟨200, "ok", ""⟩)).log = [] :=
  ref_creation_other_status_silent_failure ⟨200, "", "abc123"⟩ ⟨200, "ok", ""⟩
    (by decide) (by decide) (by decide) (by decide)

/-- C5 (failing input): a transport-level exception on the base-ref GET of
the first repository is re-raised as `UnboundLocalError` out of the `except`
block, so the run aborts: the second repository — which would have
succeeded — is never processed (only the one GET attempt's API call is
made), instead of the failure being scoped to the first repository. -/
theorem transport_exception_crashes_run :
    (create_github_branch none none).outcome = .crash
    ∧ (procB_main "release-42" "y"
        [(none, none), (some ⟨200, "", "abc123"⟩, some ⟨201, "", ""⟩)]).crashed = true
    ∧ (procB_main "release-42" "y"
        [(none, none), (some ⟨200, "", "abc123"⟩, some ⟨201, "", ""⟩)]).apiCalls = 1 := by
  decide

end CreateBranches

namespace CreateBranches

/-- C7: Procedure B's process exit status is 0 exactly when the operator
cancels at the confirmation gate or every repository's branch creation is
counted successful, and 1 exactly when the branch-name input is empty
(immediately, with no API call issued) or some repository's branch creation
did not succeed in the confirmed run. -/
theorem procB_exit_codes (b c : String) (events : List RepoHttp) :
    ((procB_main b c events).exitStatus = 0 ↔
        b ≠ "" ∧ (affirmative c = false ∨ events.all repoSuccess = true))
    ∧ ((procB_main b c events).exitStatus = 1 ↔
        b = "" ∨ (affirmative c = true ∧ ¬ events.all repoSuccess = true))
    ∧ (b = "" → (procB_main b c events).apiCalls = 0) := by
  by_cases hb : b = ""
  · simp [procB_main, hb]
  · by_cases hc : affirmative c
    · by_cases hcr : (procB_loop events).crashed
      · have hall : events.all repoSuccess = false := procB_loop_crashed_not_all events hcr
        simp [procB_main, hb, hc, hcr, hall]
      · have hall := procB_loop_all_successful events
        by_cases hs : (procB_loop events).all_successful
        · simp [procB_main, hb, hc, hcr, hs, hall ▸ hs]
        · rw [hall] at hs
          simp [procB_main, hb, hc, hcr, hall, hs]
    · simp [procB_main, hb, hc]

/-- C8: no API request is issued unless the confirmation input, lowercased,
is "y" or "yes"; with a non-empty branch name, any other confirmation input
terminates the process with exit status 0 and zero API calls. -/
theorem confirmation_gates_api_calls (b c : String) (events : List RepoHttp) :
    (0 < (procB_main b c events).apiCalls → affirmative c = true)
    ∧ (affirmative c = true ↔ (Py.lower c = "y" ∨ Py.lower c = "yes"))
    ∧ (b ≠ "" → affirmative c = false →
        (procB_main b c events).exitStatus = 0 ∧ (procB_main b c events).apiCalls = 0) := by
  refine ⟨?_, ?_, ?_⟩
  · intro hcalls
    by_contra hc
    rw [Bool.not_eq_true] at hc
    by_cases hb : b = "" <;> simp [procB_main, hb, hc] at hcalls
  · simp [affirmative]
  · intro hb hc
    simp [procB_main, hb, hc]

end CreateBranches

namespace ReposFromTE

/-- C2: the pagination loop returns the concatenation, in page order, of
exactly the pages before the first non-200 status or first empty page; a
non-200 status stops pagination with what was accumulated so far. -/
theorem fetch_repo_pages_pagination (pages : List PageResponse) :
    fetch_repo_pages pages =
      ((pages.takeWhile pageContinues).map PageResponse.body).flatten := by
  induction pages with
  | nil => rfl
  | cons p rest ih =>
      by_cases h200 : p.status_code = 200
      · by_cases hemp : p.body = []
        · simp [fetch_repo_pages, pageContinues, List.takeWhile_cons, h200, hemp]
        · simp [fetch_repo_pages, pageContinues, List.takeWhile_cons, h200, hemp, ih]
      · simp [fetch_repo_pages, pageContinues, List.takeWhile_cons, h200]

/-- C3: a repository is selected iff its name starts with "te-" and is not
the exclusion literal "te-payment-test"; the exclusion literal itself does
match the prefix yet is never selected; the selection is an order-preserving
sublist of the input. -/
theorem filter_te_repos_selection (repos : List RepoJson) (r : RepoJson) :
    (r ∈ filter_te_repos repos ↔
        r ∈ repos ∧ Py.startswith r.name "te-" = true ∧ r.name ≠ excluded_name)
    ∧ Py.startswith excluded_name "te-" = true
    ∧ (∀ q ∈ filter_te_repos repos, q.name ≠ excluded_name)
    ∧ (filter_te_repos repos).Sublist repos := by
  refine ⟨?_, by decide, ?_, List.filter_sublist repos⟩
  · simp [filter_te_repos, List.mem_filter, and_assoc]
  · intro q hq
    have h := (List.mem_filter.mp hq).2
    simp only [Bool.and_eq_true, Bool.not_eq_true', beq_eq_false_iff_ne] at h
    exact h.2

end ReposFromTE

namespace ReposFromTE

/-- C4: with a present, non-empty branch name, the PR opener returns exactly
the `html_url` field of the creation response iff the creation status is
201, in which case it issues exactly one reviewer request; on any other
creation status it returns nothing and issues no reviewer request. -/
theorem create_pull_request_status_policy (b : String) (hb : b ≠ "") (r : PRResponse) :
    ((create_pull_request (some b) (some r)).result = some r.html_url ↔
        r.status_code = 201)
    ∧ (r.status_code = 201 →
        (create_pull_request (some b) (some r)).reviewerRequests = 1)
    ∧ (r.status_code ≠ 201 →
        (create_pull_request (some b) (some r)).result = none ∧
        (create_pull_request (some b) (some r)).reviewerRequests = 0) := by
  by_cases h201 : r.status_code = 201 <;> simp [create_pull_request, hb, h201]

theorem create_pull_request_status_policy_witness :
    ((create_pull_request (some "add-cherrypick-workflow")
        (some ⟨201, 7, "https://github.test/pr/7", "body"⟩)).result =
      some "https://github.test/pr/7")
    ∧ (create_pull_request (some "add-cherrypick-workflow")
        (some ⟨201, 7, "https://github.test/pr/7", "body"⟩)).reviewerRequests = 1 := by
  have h := create_pull_request_status_policy "add-cherrypick-workflow" (by decide)
    ⟨201, 7, "https://github.test/pr/7", "body"⟩
  exact ⟨h.1.mpr rfl, h.2.1 rfl⟩

/-- C9: when the branch-publish step fails (yields no branch name), the PR
opener issues no HTTP request, requests no reviewers, and produces no
result for that repository. -/
theorem no_pr_without_published_branch (resp : Option PRResponse) :
    create_branch_and_push false = none
    ∧ (create_pull_request (create_branch_and_push false) resp).prRequestIssued = false
    ∧ (create_pull_request (create_branch_and_push false) resp).result = none
    ∧ (create_pull_request (create_branch_and_push false) resp).reviewerRequests = 0 := by
  exact ⟨rfl, rfl, rfl, rfl⟩

/-- C6: the list accumulated by Procedure A's loop is exactly the URLs of
the successfully created pull requests, in creation order, and the output
file's persisted content is those URLs each followed by one newline, in that
order. -/
theorem output_file_lists_created_pr_urls (events : List RepoEvents) :
    procA_loop events = events.filterMap successUrl
    ∧ write_output_file (procA_loop events) =
        String.join ((events.filterMap successUrl).map (fun u => u ++ "\n")) := by
  have hbn : branch_name ≠ "" := by decide
  have h : procA_loop events = events.filterMap successUrl := by
    induction events with
    | nil => rfl
    | cons e rest ih =>
        obtain ⟨g, pr⟩ := e
        cases g
        · cases pr <;>
            simp [procA_loop, create_branch_and_push, create_pull_request,
              successUrl, List.filterMap_cons, ih]
        · cases pr with
          | none =>
              simp [procA_loop, create_branch_and_push, create_pull_request, hbn,
                successUrl, List.filterMap_cons, ih]
          | some r =>
              by_cases h201 : r.status_code = 201 <;>
                simp [procA_loop, create_branch_and_push, create_pull_request, hbn,
                  successUrl, List.filterMap_cons, h201, ih]
  exact ⟨h, by rw [h]; rfl⟩

end ReposFromTE
